import Mathlib

/-!
Verification development for the wappsto-python connection subsystem
(src/wappsto/connection/communication.py, message_log.py,
network_classes/value.py and collaborators), shallowly embedded in Lean.

JSON values are modelled by `JVal`; Python dicts are association lists in
insertion order, as CPython guarantees.  Fallible Python code is modelled
with `Option`/`Except PyErr`, where the error constructor names the Python
exception class that would propagate.  Recursions over JSON trees take an
explicit fuel argument (plain structural recursion on `Nat`, so every
definition evaluates inside the kernel); running out of fuel is reported
like an error, and every theorem about a run is stated for runs that
complete, which holds for all sufficiently large fuels.
-/

namespace Wappsto

/-- Python exception classes that show up in the embedded code paths. -/
inductive PyErr : Type where
  | attributeError
  | typeError
  | valueError
  | indexError
  | fileNotFoundError
  | outOfFuel
deriving Repr, DecidableEq

/-- A JSON value as produced by json.loads: Python None, bool, int, str,
list and dict (the dict keeps insertion order, as CPython dicts do).
Floats do not occur in the message shapes the embedded code handles. -/
inductive JVal : Type where
  | null : JVal
  | bool (b : Bool) : JVal
  | num (n : Int) : JVal
  | str (s : String) : JVal
  | arr (elems : List JVal) : JVal
  | obj (fields : List (String × JVal)) : JVal
deriving Repr

/-- Python len(d) == 0 for the dicts tested by send_data and
get_object_without_none_values after stripping; equivalently, equality
with the empty dict (in Python, {} compares equal only to empty dicts). -/
def isEmptyObj : JVal → Bool
  | .obj fs => fs.isEmpty
  | _ => false

/-- One Python for-loop over a list that strips each visited element in place
and does lst.remove(element) when the stripped element has become empty,
exactly as in send_data (communication.py:570-573) and in the list case of
get_object_without_none_values (communication.py:604-608).
Each slot carries its current value together with the result of stripping it
(`none` models the AttributeError that .items() raises on a non-dict, thrown
only when the element is actually visited).  The CPython list iterator keeps
a plain index that advances by one each round while remove shifts the list
left, so the element after a removed one is skipped; remove deletes the
first element that compares equal to the (now empty) dict, which is the
first slot whose current value is an empty dict.  The loop runs at most
xs.length + 1 rounds because the index grows by one per round and the list
never grows, so the wrappers below always supply enough fuel. -/
def stripLoopF : Nat → Nat → List (JVal × Option JVal) →
    Option (List (JVal × Option JVal))
  | 0, _, _ => none
  | fuel+1, idx, xs =>
    if h : idx < xs.length then
      match (xs.get ⟨idx, h⟩).2 with
      | none => none
      | some sv =>
        let xs1 := xs.set idx (sv, some sv)
        if isEmptyObj sv then
          stripLoopF fuel (idx+1) (xs1.eraseP (fun q => isEmptyObj q.1))
        else
          stripLoopF fuel (idx+1) xs1
    else some xs

/-- Embeds get_object_without_none_values (communication.py:587-610) applied
to one value: a dict has its None-valued keys dropped, dict values stripped
recursively and dropped when empty, and list values run through the in-place
element loop and dropped when the surviving list is empty; any other value
is kept under its key.  Applying it to a non-dict raises AttributeError
(.items() is missing), modelled by `none`.  The fuel only needs to dominate
the nesting depth of the value. -/
def jStrip : Nat → JVal → Option JVal
  | 0, _ => none
  | fuel+1, .obj fs =>
    (fs.foldr (fun kv acc =>
      match acc with
      | none => none
      | some rest =>
        match kv.2 with
        | .null => some rest
        | .obj fs0 =>
          match jStrip fuel (.obj fs0) with
          | some v2 => some (if isEmptyObj v2 then rest else (kv.1, v2) :: rest)
          | none => none
        | .arr es =>
          match stripLoopF (es.length + 1) 0
              (es.map (fun e => (e, jStrip fuel e))) with
          | none => none
          | some ps =>
            some (if ps.isEmpty then rest
                  else (kv.1, .arr (ps.map (fun q => q.1))) :: rest)
        | w => some ((kv.1, w) :: rest)) (some [])).map JVal.obj
  | _+1, _ => none

/-- The stripping pass of send_data (communication.py:570-573): every batch
element is stripped in place, elements that end up empty are removed with
the same skip-after-removal iterator behavior, and a non-dict element makes
the pass raise AttributeError at its visit. -/
def batchStrip (fuel : Nat) (data : List JVal) : Option (List JVal) :=
  (stripLoopF (data.length + 1) 0
      (data.map (fun e => (e, jStrip fuel e)))).map
    (List.map (fun q => q.1))

/-- Python dict .get(key): the value stored under the first (and, keys being
unique, only) matching key, or nothing. -/
def getField (fs : List (String × JVal)) (k : String) : Option JVal :=
  match fs.find? (fun p => p.1 == k) with
  | some p => some p.2
  | none => none

/-- A hashable Python value usable as a dict key.  packet_awaiting_confirm is
keyed by data.get('id'); a missing key and a JSON null both give Python None,
and Python bools compare (and hash) equal to the ints 0/1, so they are folded
into the int case. -/
inductive PKey : Type where
  | noneKey : PKey
  | intKey (n : Int) : PKey
  | strKey (s : String) : PKey
deriving Repr, DecidableEq

/-- The key data.get('id') that add_id_to_confirm_list (communication.py:245-258)
stores a request under.  `none` models the TypeError an unhashable id value
(a list or dict) would raise at insertion; this function is only reached for
dict elements, so the non-dict case is unreachable in send_data. -/
def getIdKey (el : JVal) : Option PKey :=
  match el with
  | .obj fs =>
    match getField fs "id" with
    | none => some .noneKey
    | some .null => some .noneKey
    | some (.bool b) => some (.intKey (if b then 1 else 0))
    | some (.num n) => some (.intKey n)
    | some (.str s) => some (.strKey s)
    | some (.arr _) => none
    | some (.obj _) => none
  | _ => none

/-- data_element.get("method", "") in ["PUT", "POST", "DELETE"]
(communication.py:577): a missing key defaults to "" and a non-string value
never compares equal to those strings. -/
def methodIsMutating (el : JVal) : Bool :=
  match el with
  | .obj fs =>
    match getField fs "method" with
    | some (.str s) => s == "PUT" || s == "POST" || s == "DELETE"
    | _ => false
  | _ => false

/-- packet_awaiting_confirm: a Python dict from request id to request body,
kept in insertion order. -/
abbrev PendingMap := List (PKey × JVal)

/-- Python d[k] = v: replace the value of an existing key in place, otherwise
append the new binding at the end. -/
def dictInsert (m : PendingMap) (k : PKey) (v : JVal) : PendingMap :=
  if m.any (fun p => p.1 == k) then
    m.map (fun p => if p.1 == k then (k, v) else p)
  else m ++ [(k, v)]

/-- Python d.get(k) / k in d on the pending map. -/
def dictLookup (m : PendingMap) (k : PKey) : Option JVal :=
  match m.find? (fun p => p.1 == k) with
  | some p => some p.2
  | none => none

/-- The registration loop of send_data while connected
(communication.py:576-578): every element whose method is PUT, POST or
DELETE is put into packet_awaiting_confirm under its id, in batch order,
before anything is written to the socket. -/
def registerMutating (m : PendingMap) : List JVal → Option PendingMap
  | [] => some m
  | el :: rest =>
    if methodIsMutating el then
      match getIdKey el with
      | none => none
      | some k => registerMutating (dictInsert m k el) rest
    else registerMutating m rest

/-- What one call to send_data (communication.py:560-585) did besides
updating the pending map:
wrote        - connected, the stripped batch was non-empty and
               my_socket.send succeeded;
writeFailed  - connected, non-empty, and my_socket.send raised OSError
               (caught one level up, in create_bulk);
noFrame      - connected but the batch stripped to the empty list, so the
               len(data) > 0 guard skipped the write;
logged       - not connected, the stripped batch went to
               event_storage.add_message;
noFlush      - only used by create_bulk: the flush condition did not hold. -/
inductive Effect : Type where
  | noFlush : Effect
  | wrote (frame : List JVal) : Effect
  | writeFailed (frame : List JVal) : Effect
  | noFrame : Effect
  | logged (batch : List JVal) : Effect
deriving Repr

/-- ClientSocket.send_data (communication.py:560-585).  `sockOk` says whether
the underlying my_socket.send call would succeed; `none` models an exception
from the stripping pass or an unhashable id propagating out. -/
def send_data (fuel : Nat) (connected : Bool) (pending : PendingMap)
    (data : List JVal) (sockOk : Bool) : Option (PendingMap × Effect) :=
  match batchStrip fuel data with
  | none => none
  | some stripped =>
    if connected then
      match registerMutating pending stripped with
      | none => none
      | some pending2 =>
        if 0 < stripped.length then
          if sockOk then some (pending2, .wrote stripped)
          else some (pending2, .writeFailed stripped)
        else some (pending2, .noFrame)
    else some (pending, .logged stripped)

/-- The state create_bulk reads and writes: whether sending_queue.qsize() is
zero, packet_awaiting_confirm, bulk_send_list, and the connected flag. -/
structure BulkState : Type where
  queueEmpty : Bool
  pending : PendingMap
  bulk : List JVal
  connected : Bool
deriving Repr

def MAX_BULK_SIZE : Nat := 10

/-- ClientSocket.create_bulk (communication.py:537-558): append the new
message (when not None) to bulk_send_list, flush through send_data when the
sending queue and the pending map are both empty or the batch has reached
MAX_BULK_SIZE, and clear the list afterwards - except that an OSError from
the socket write jumps to the handler, which only flips connected to False,
leaving bulk_send_list holding the (stripped in place) frame. -/
def create_bulk (fuel : Nat) (st : BulkState) (data : Option JVal)
    (sockOk : Bool) : Option (BulkState × Effect) :=
  if (st.queueEmpty && st.pending.isEmpty) ||
      MAX_BULK_SIZE ≤ (st.bulk ++ data.toList).length then
    match send_data fuel st.connected st.pending (st.bulk ++ data.toList)
        sockOk with
    | none => none
    | some (pending2, .wrote frame) =>
      some ({ st with pending := pending2, bulk := [] }, .wrote frame)
    | some (pending2, .writeFailed frame) =>
      some ({ st with pending := pending2, bulk := frame, connected := false },
            .writeFailed frame)
    | some (pending2, .noFrame) =>
      some ({ st with pending := pending2, bulk := [] }, .noFrame)
    | some (pending2, .logged batch) =>
      some ({ st with pending := pending2, bulk := [] }, .logged batch)
    | some (_, .noFlush) => none
  else
    some ({ st with bulk := st.bulk ++ data.toList }, .noFlush)

/-- Last element of a list, as the fold of repeated overwrites observes it. -/
def lastOf : List JVal → Option JVal
  | [] => none
  | [a] => some a
  | _ :: b :: rest => lastOf (b :: rest)

/-- The last element of els that is mutating and carries id key k: the value
the pending map holds under k after the registration loop, since later
insertions overwrite earlier ones. -/
def lastMutatingWith (els : List JVal) (k : PKey) : Option JVal :=
  lastOf (els.filter (fun el => methodIsMutating el && decide (getIdKey el = some k)))

/-- ClientSocket.remove_id_from_confirm_list (communication.py:260-274):
delete the id from packet_awaiting_confirm only if it is present (under
lock_await).  The membership guard means the Python del never raises
KeyError, so the embedded function is total. -/
def remove_id_from_confirm_list (m : PendingMap) (i : PKey) : PendingMap :=
  if m.any (fun p => p.1 == i) then m.eraseP (fun p => p.1 == i) else m

/-- The per-value state Value.__send_report_thread keeps across iterations
(value.py:282-324) when period is None and the value is number-typed:
`value` (the last observed sample), self.difference and self.delta_report. -/
structure ReportState : Type where
  lastObserved : Int
  difference : Int
  deltaReport : Nat
deriving Repr, DecidableEq

/-- One iteration of the while loop of Value.__send_report_thread
(value.py:298-324) with period = None (the period branch is skipped), delta
set, and the report state holding the given integer sample this tick.
If the sample changed, difference becomes fabs(int(old) - int(new)) - the
distance between the last two distinct samples, overwriting, not
accumulating - and the delta_report flag is set; then __send_report_delta
(value.py:247-268) sends a report iff int(difference) >= int(delta) and the
flag is set, clearing only the flag.  Returns the new state and whether a
report was sent. -/
def reportTick (delta : Int) (st : ReportState) (sample : Int) :
    ReportState × Bool :=
  let st1 :=
    if sample = st.lastObserved then st
    else { lastObserved := sample,
           difference := ((st.lastObserved - sample).natAbs : Int),
           deltaReport := 1 }
  if delta ≤ st1.difference ∧ st1.deltaReport = 1 then
    ({ st1 with deltaReport := 0 }, true)
  else (st1, false)

/-- The loop run over a sample trace, returning the final state and the
per-tick report decisions. -/
def reportRun (delta : Int) (st : ReportState) :
    List Int → ReportState × List Bool
  | [] => (st, [])
  | s :: rest =>
    match reportTick delta st s with
    | (st1, fired) =>
      match reportRun delta st1 rest with
      | (stFinal, fires) => (stFinal, fired :: fires)

/-- Before the loop, `value = state.data` (value.py:297), self.difference is
0 and self.delta_report is 0 (value.py:99-100). -/
def reportInit (first : Int) : ReportState := ⟨first, 0, 0⟩

/-- A per-value report timer handle, as close() expects to find one:
something with is_alive() and cancel(). -/
structure TimerHandle : Type where
  alive : Bool
deriving Repr, DecidableEq

/-- A value as close() sees it.  The only attribute the close loop reads is
`timer`. -/
structure ValueObj : Type where
  uuid : String
deriving Repr, DecidableEq

/-- The attribute lookup value.timer performed by close()
(communication.py:918-921): `timer` is never assigned anywhere in the source
(Value.__init__, value.py:74-100, assigns reporting_thread but no timer), so
the lookup falls through to Value.__getattr__ (value.py:105-118), which
returns a value only for "last_controlled" and otherwise falls off the end,
returning Python None. -/
def valueTimer (_v : ValueObj) : Option TimerHandle := none

/-- The timer-cancelling loop of ClientSocket.close (communication.py:916-921)
over one device's values: value.timer.is_alive() on the None that
Value.__getattr__ produced raises AttributeError. -/
def cancelValueTimers : List ValueObj → Except PyErr Unit
  | [] => .ok ()
  | v :: rest =>
    match valueTimer v with
    | none => .error .attributeError
    | some _ => cancelValueTimers rest

/-- The same loop over all devices of the network. -/
def cancelAllTimers : List (List ValueObj) → Except PyErr Unit
  | [] => .ok ()
  | vs :: rest =>
    match cancelValueTimers vs with
    | .error e => .error e
    | .ok _ => cancelAllTimers rest

/-- The state ClientSocket.close (communication.py:908-929) reads and
writes: the per-device value lists of the network, the connected flag, and
whether my_socket / my_raw_socket still hold a socket (close() sets both
to None, and a second call skips the guarded close calls). -/
structure CloseState : Type where
  devices : List (List ValueObj)
  connected : Bool
  mySocket : Bool
  myRawSocket : Bool
deriving Repr, DecidableEq

/-- ClientSocket.close: cancel every value timer, then set connected to
False and close and drop both socket handles.  Nothing in close catches the
AttributeError from the timer loop, so it propagates to the caller. -/
def close (st : CloseState) : Except PyErr CloseState :=
  match cancelAllTimers st.devices with
  | .error e => .error e
  | .ok _ =>
    .ok { st with connected := false, mySocket := false, myRawSocket := false }

/-- One file in the offline-log directory: its name (date plus .txt or
.zip), its logical lines (each stored line is the serialized message
followed by " \n"), and whether it has been compacted into a zip. -/
structure LogFile : Type where
  name : String
  lines : List String
  zipped : Bool
deriving Repr, DecidableEq

/-- The MessageLog configuration (message_log.py:32-57): log_offline,
log_data_limit (bytes), limit_action and lines_to_remove. -/
structure LogCfg : Type where
  logOffline : Bool
  logDataLimit : Nat
  limitAction : Nat
  linesToRemove : Nat
deriving Repr, DecidableEq

def REMOVE_OLD : Nat := 1

def REMOVE_RECENT : Nat := 2

/-- CPython's sys.getsizeof on a compact ASCII str object, as
MessageLog.get_size (message_log.py:220-241) applies it to the serialized
message: 49 bytes of object header plus one byte per character. -/
def pyStrSizeof (s : String) : Nat := 49 + s.length

/-- On-disk byte size of a plain text log file: each stored line is the
serialized message plus " \n" (message_log.py:203). -/
def txtBytes (lines : List String) : Nat :=
  (lines.map (fun l => l.length + 2)).sum

/-- On-disk byte size of a file; the size a zip archive of the given lines
takes is outside the source, so it is a parameter of the model. -/
def fileBytes (zipBytes : List String → Nat) (f : LogFile) : Nat :=
  if f.zipped then zipBytes f.lines else txtBytes f.lines

/-- MessageLog.get_size (message_log.py:220-241): total size of the files in
the log directory plus sys.getsizeof of the serialized message. -/
def get_size (zipBytes : List String → Nat) (files : List LogFile)
    (s : String) : Nat :=
  (files.map (fileBytes zipBytes)).sum + pyStrSizeof s

/-- all_logs.sort(); all_logs[0] (message_log.py:138-140): the
lexicographically smallest file name, or nothing when the directory is
empty (then the indexing raises IndexError). -/
def minName : List String → Option String
  | [] => none
  | n :: rest => some (rest.foldl (fun a b => if b < a then b else a) n)

/-- MessageLog.compact_logs (message_log.py:112-126): every plain text log
is zipped (same lines, .txt renamed to .zip) and the text file removed. -/
def compact_logs (files : List LogFile) : List LogFile :=
  files.map (fun f =>
    if f.zipped then f
    else { f with zipped := true, name := f.name.replace ".txt" ".zip" })

/-- MessageLog.get_text_log (message_log.py:143-161): a zipped file is
extracted back to its text form (same lines) and the archive removed; a
text file is returned as is. -/
def get_text_log (files : List LogFile) (name : String) :
    List LogFile × String :=
  if name.endsWith ".zip" then
    (files.map (fun f =>
      if f.name == name then
        { f with zipped := false, name := name.replace ".zip" ".txt" }
      else f),
     name.replace ".zip" ".txt")
  else (files, name)

/-- MessageLog.get_oldest_log (message_log.py:128-141): take the smallest
file name - all_logs[0] raises IndexError on an empty directory - and make
sure it is in text form. -/
def get_oldest_log (files : List LogFile) :
    Except PyErr (List LogFile × String) :=
  match minName (files.map (fun f => f.name)) with
  | none => .error .indexError
  | some n => .ok (get_text_log files n)

/-- MessageLog.remove_first_lines (message_log.py:163-182): drop
lines_to_remove lines from the front of the file, deleting the whole file
when it does not have more lines than that; a missing file makes the open
raise FileNotFoundError. -/
def remove_first_lines (linesToRemove : Nat) (files : List LogFile)
    (name : String) : Except PyErr (List LogFile) :=
  match files.find? (fun f => f.name == name) with
  | none => .error .fileNotFoundError
  | some f =>
    if linesToRemove < f.lines.length then
      .ok (files.map (fun g =>
        if g.name == name then { g with lines := g.lines.drop linesToRemove }
        else g))
    else .ok (files.filter (fun g => !(g.name == name)))

/-- Name of the current day's log file (message_log.py:87-97). -/
def todaysName (today : String) : String := today ++ ".txt"

/-- open(file_path, "a"); file.write(string_data + " \n") - append to the
day's file, creating it when absent. -/
def appendLine (files : List LogFile) (name : String) (s : String) :
    List LogFile :=
  if files.any (fun f => f.name == name) then
    files.map (fun f =>
      if f.name == name then { f with lines := f.lines ++ [s] } else f)
  else files ++ [{ name := name, lines := [s], zipped := false }]

/-- MessageLog.add_message (message_log.py:184-218) on the already
serialized message s.  When logging is on and log_data_limit >= get_size,
the message is appended to today's file (compacting the previous days'
text logs first when today's file does not exist yet); otherwise
REMOVE_OLD trims the oldest file and retries recursively - raising
IndexError through get_oldest_log when there is no file at all, since only
FileNotFoundError is caught - and REMOVE_RECENT (or any other action value)
drops the message.  The fuel bounds the recursion depth; each REMOVE_OLD
round removes lines or a file, so total lines + file count + 1 rounds
always suffice (with lines_to_remove = 0 and a non-empty oldest file the
Python code would recurse forever; running out of fuel models that). -/
def add_message (zipBytes : List String → Nat) (cfg : LogCfg)
    (today : String) : Nat → List LogFile → String →
    Except PyErr (List LogFile)
  | 0, _, _ => .error .outOfFuel
  | fuel+1, files, s =>
    if cfg.logOffline then
      if get_size zipBytes files s ≤ cfg.logDataLimit then
        .ok (appendLine
          (if files.any (fun f => f.name == todaysName today) then files
           else compact_logs files)
          (todaysName today) s)
      else
        if cfg.limitAction == REMOVE_OLD then
          match get_oldest_log files with
          | .error e => .error e
          | .ok (files1, name) =>
            match remove_first_lines cfg.linesToRemove files1 name with
            | .error .fileNotFoundError => .ok files1
            | .error e => .error e
            | .ok files2 => add_message zipBytes cfg today fuel files2 s
        else .ok files
    else .ok files

/-- Python dict .get(k) on a JSON value, with the Python None collapsing:
a missing key and an explicit JSON null both come back as Python None
(json.loads maps null to None).  Calling .get on anything that is not a
dict raises AttributeError. -/
def pyGet (v : JVal) (k : String) : Except PyErr (Option JVal) :=
  match v with
  | .obj fs =>
    match getField fs k with
    | some .null => .ok none
    | some w => .ok (some w)
    | none => .ok none
  | _ => .error .attributeError

/-- Chained .get on the previous Option result: None.get(...) and
non-dict.get(...) both raise AttributeError. -/
def pyGetOpt (v : Option JVal) (k : String) : Except PyErr (Option JVal) :=
  match v with
  | none => .error .attributeError
  | some w => pyGet w k

/-- Python truthiness of a JSON value (None never reaches this, the .get
model already collapsed null away). -/
def jTruthy : JVal → Bool
  | .null => false
  | .bool b => b
  | .num n => !(n == 0)
  | .str s => !s.isEmpty
  | .arr es => !es.isEmpty
  | .obj fs => !fs.isEmpty

/-- What the shared uuid extraction of incoming_control /
incoming_report_request / incoming_delete_request finds
(communication.py:291-292, 418, 467): the target uuid string, the
params.data dict it lives under, and params.data.meta.get('type') (read
only by incoming_control; on success it can be read without further
exceptions, so sharing it is harmless). -/
structure TargetInfo : Type where
  uuid : String
  paramsData : JVal
  metaType : Option JVal
deriving Repr

/-- uuid = data.get('params').get('data').get('meta').get('id') with
meta_type from the same chain.  An AttributeError from a missing or
non-dict link is the handlers' "incorrect format" path; the debug line
"... request from id: " + uuid that follows inside the same try raises
TypeError - which the try does not catch - when uuid is not a string
(in particular when 'id' is missing under an existing meta). -/
def extractTarget (data : JVal) : Except PyErr TargetInfo :=
  match pyGet data "params" with
  | .error e => .error e
  | .ok none => .error .attributeError
  | .ok (some p) =>
    match pyGet p "data" with
    | .error e => .error e
    | .ok none => .error .attributeError
    | .ok (some dd) =>
      match pyGet dd "meta" with
      | .error e => .error e
      | .ok none => .error .attributeError
      | .ok (some mm) =>
        match pyGet mm "id" with
        | .error e => .error e
        | .ok (some (.str s)) =>
          match pyGet mm "type" with
          | .error e => .error e
          | .ok mt => .ok ⟨s, dd, mt⟩
        | .ok _ => .error .typeError

/-- The trace-id block shared by the three handlers
(communication.py:299-304): try data.get('params').get('meta').get('trace'),
with AttributeError caught and turned into None; a truthy non-string trace
id would make the debug concatenation raise TypeError. -/
def extractTrace (data : JVal) : Except PyErr (Option JVal) :=
  match
    (match pyGet data "params" with
     | .error e => .error e
     | .ok p =>
       match pyGetOpt p "meta" with
       | .error e => .error e
       | .ok m => pyGetOpt m "trace" : Except PyErr (Option JVal)) with
  | .error .attributeError => .ok none
  | .error e => .error e
  | .ok none => .ok none
  | .ok (some t) =>
    if jTruthy t then
      match t with
      | .str _ => .ok (some t)
      | _ => .error .typeError
    else .ok (some t)

/-- A packet put on sending_queue by a handler: a SEND_TRACE beacon entry
(sending_queue_add_trace, communication.py:345-367), a SEND_SUCCESS reply
(send_success_reply, communication.py:369-383) or a SEND_FAILED error reply
(send_error, communication.py:385-401). -/
inductive Queued : Type where
  | trace (parent : String) (traceId : JVal) (payload : Option JVal) : Queued
  | success (rpcId : Option JVal) : Queued
  | failed (text : String) (rpcId : Option JVal) : Queued
deriving Repr

/-- Python x == "lit" for an arbitrary value x: true exactly for the equal
string. -/
def isStrEq (v : Option JVal) (s : String) : Bool :=
  match v with
  | some (.str s2) => s2 == s
  | _ => false

/-- sending_queue_add_trace: queue a trace entry only when the trace id is
truthy. -/
def addTrace (parent : String) (traceId : Option JVal)
    (payload : Option JVal) : List Queued :=
  match traceId with
  | some t => if jTruthy t then [Queued.trace parent t payload] else []
  | none => []

/-- The object data_manager.get_by_id resolves a uuid to.  get_by_id itself
and the State and Device classes are not under src/ (the spec calls this
"resolve target by id (external lookup)"), so the lookup is a function
parameter and the variants carry just the attributes the handlers read,
modelled from the spec: a Value (set_period / set_delta from value.py,
state_type absent so Value.__getattr__ answers None for it), a State with
its kind, data and owning value, or a plain Network / Device object with
none of those attributes, where the attribute accesses raise
AttributeError. -/
inductive DMObj : Type where
  | value (parentUuid : String) (hasReportState : Bool) (numberType : Bool)
      (hasControlState : Bool) : DMObj
  | stateObj (parentUuid : String) (stateType : String)
      (stateData : Option JVal) (parentHasControlState : Bool) : DMObj
  | plain : DMObj
deriving Repr

/-- Python int(x) as set_period applies it (value.py:132): int(None) and
int of a list or dict raise TypeError, a non-numeric string raises
ValueError; numeric strings in this model are integer literals. -/
def pyInt (v : Option JVal) : Except PyErr Int :=
  match v with
  | none => .error .typeError
  | some (.num n) => .ok n
  | some (.bool b) => .ok (if b then 1 else 0)
  | some (.str s) =>
    match s.toInt? with
    | some n => .ok n
    | none => .error .valueError
  | some _ => .error .typeError

/-- Value.set_period (value.py:120-138): if a report state exists and
int(period) > 0 the period is stored; ValueError is caught and logged,
while the TypeError from int(None) escapes.  Only the control flow matters
here, so the stored period is not tracked. -/
def set_periodRun (hasReport : Bool) (period : Option JVal) :
    Except PyErr Unit :=
  match (if hasReport then (pyInt period).map (fun _ => ())
         else .ok () : Except PyErr Unit) with
  | .error .valueError => .ok ()
  | r => r

/-- Value.set_delta (value.py:140-159): same shape, guarded by the value
being number-typed, using float(delta); float accepts the same values as
int in this integer-literal model. -/
def set_deltaRun (numberType hasReport : Bool) (delta : Option JVal) :
    Except PyErr Unit :=
  match (if numberType && hasReport then (pyInt delta).map (fun _ => ())
         else .ok () : Except PyErr Unit) with
  | .error .valueError => .ok ()
  | r => r

/-- The try body of incoming_control after the target resolved
(communication.py:311-336): the "value" branch sets period and delta, adds
a trace entry and queues a success reply; the "state" branch pushes the
control data into the owning value (AttributeError when the value has no
control state: None.data fails), then trace and success, or an
"Element is not control state" error reply for a non-Control state - a
Value also lands there because Value.__getattr__ answers None for
state_type - while a plain object raises AttributeError; any other
meta_type falls through the branch ladder, queueing nothing. -/
def putBody (obj : DMObj) (t : TargetInfo) (traceId : Option JVal)
    (returnId : Option JVal) : Except PyErr (List Queued) :=
  if isStrEq t.metaType "value" then
    match obj with
    | .value parentUuid hasReport numberType _ =>
      match pyGet t.paramsData "period" with
      | .error e => .error e
      | .ok period =>
        match set_periodRun hasReport period with
        | .error e => .error e
        | .ok _ =>
          match pyGet t.paramsData "delta" with
          | .error e => .error e
          | .ok delta =>
            match set_deltaRun numberType hasReport delta with
            | .error e => .error e
            | .ok _ =>
              .ok (addTrace parentUuid traceId none ++ [Queued.success returnId])
    | .stateObj _ _ _ _ => .error .attributeError
    | .plain => .error .attributeError
  else if isStrEq t.metaType "state" then
    match pyGet t.paramsData "data" with
    | .error e => .error e
    | .ok localData =>
      match obj with
      | .stateObj parentUuid stype _ parentHasControl =>
        if stype == "Control" then
          if parentHasControl then
            .ok (addTrace parentUuid traceId localData
              ++ [Queued.success returnId])
          else .error .attributeError
        else .ok [Queued.failed "Element is not control state" returnId]
      | .value _ _ _ _ =>
        .ok [Queued.failed "Element is not control state" returnId]
      | .plain => .error .attributeError
  else .ok []

/-- ClientSocket.incoming_control (communication.py:276-338).  The result
is the queued replies together with a flag recording whether the raw
payload was logged on the "incorrect format" path; an uncaught exception
(TypeError and the like) is an error. -/
def incoming_control (lookup : String → Option DMObj) (data : JVal) :
    Except PyErr (List Queued × Bool) :=
  match pyGet data "id" with
  | .error e => .error e
  | .ok returnId =>
    match extractTarget data with
    | .error .attributeError => .ok ([], true)
    | .error e => .error e
    | .ok t =>
      match extractTrace data with
      | .error e => .error e
      | .ok traceId =>
        match lookup t.uuid with
        | none => .ok ([Queued.failed "Non-existing uuid provided" returnId],
            false)
        | some obj =>
          match putBody obj t traceId returnId with
          | .error .attributeError =>
            .ok ([Queued.failed "Attribute error encountered" returnId], false)
          | .error e => .error e
          | .ok qs => .ok (qs, false)

/-- The try body of incoming_report_request after the target resolved
(communication.py:437-450): a Report state queues a trace entry carrying
obj.data, triggers the refresh callback (a no-op by default) and queues a
success reply; any other state kind - and a Value, whose state_type reads
as None - gets an "Element is not control state" error reply; a plain
object raises AttributeError. -/
def getBody (obj : DMObj) (traceId : Option JVal) (returnId : Option JVal) :
    Except PyErr (List Queued) :=
  match obj with
  | .stateObj parentUuid stype sdata _ =>
    if stype == "Report" then
      .ok (addTrace parentUuid traceId sdata ++ [Queued.success returnId])
    else .ok [Queued.failed "Element is not control state" returnId]
  | .value _ _ _ _ =>
    .ok [Queued.failed "Element is not control state" returnId]
  | .plain => .error .attributeError

/-- ClientSocket.incoming_report_request (communication.py:403-450). -/
def incoming_report_request (lookup : String → Option DMObj) (data : JVal) :
    Except PyErr (List Queued × Bool) :=
  match pyGet data "id" with
  | .error e => .error e
  | .ok returnId =>
    match extractTarget data with
    | .error .attributeError => .ok ([], true)
    | .error e => .error e
    | .ok t =>
      match extractTrace data with
      | .error e => .error e
      | .ok traceId =>
        match lookup t.uuid with
        | none => .ok ([Queued.failed "Non-existing uuid provided" returnId],
            false)
        | some obj =>
          match getBody obj traceId returnId with
          | .error .attributeError =>
            .ok ([Queued.failed "Attribute error encountered" returnId], false)
          | .error e => .error e
          | .ok qs => .ok (qs, false)

/-- ClientSocket.incoming_delete_request (communication.py:452-496): after
the target resolved, queue a trace entry under the object's own uuid,
invoke its delete callback (a no-op by default for every object kind, per
the spec for the classes outside src/) and queue a success reply. -/
def incoming_delete_request (lookup : String → Option DMObj) (data : JVal) :
    Except PyErr (List Queued × Bool) :=
  match pyGet data "id" with
  | .error e => .error e
  | .ok returnId =>
    match extractTarget data with
    | .error .attributeError => .ok ([], true)
    | .error e => .error e
    | .ok t =>
      match extractTrace data with
      | .error e => .error e
      | .ok traceId =>
        match lookup t.uuid with
        | none => .ok ([Queued.failed "Non-existing uuid provided" returnId],
            false)
        | some _ =>
          .ok (addTrace t.uuid traceId none ++ [Queued.success returnId],
            false)

example : batchStrip 9 [JVal.obj [("a", JVal.null)], JVal.obj [("b", JVal.null)]]
    = some [JVal.obj [("b", JVal.null)]] := rfl

example : batchStrip 9 [JVal.obj [("a", JVal.num 1)], JVal.obj [("b", JVal.null)]]
    = some [JVal.obj [("a", JVal.num 1)]] := rfl

example : batchStrip 9 [JVal.obj [("k", JVal.arr [JVal.obj [("a", JVal.null)],
      JVal.obj [("x", JVal.num 1)], JVal.obj [("b", JVal.null)]])]]
    = some [JVal.obj [("k", JVal.arr [JVal.obj [("x", JVal.num 1)]])]] := rfl

example :
    create_bulk 9 ⟨true, [], [], true⟩
      (some (JVal.obj [("method", JVal.str "POST"), ("id", JVal.num 3)])) true
    = some (⟨true,
        [(PKey.intKey 3, JVal.obj [("method", JVal.str "POST"), ("id", JVal.num 3)])],
        [], true⟩,
      Effect.wrote [JVal.obj [("method", JVal.str "POST"), ("id", JVal.num 3)]]) := rfl

example :
    create_bulk 9 ⟨false, [(PKey.intKey 1, JVal.null)], [], true⟩
      (some (JVal.obj [("method", JVal.str "POST")])) true
    = some (⟨false, [(PKey.intKey 1, JVal.null)],
        [JVal.obj [("method", JVal.str "POST")]], true⟩, Effect.noFlush) := rfl

/-- A completed send_data call never reports noFlush, and the frame of a
socket write (successful or failed) is never the empty list, because the
write is guarded by len(data) > 0. -/
theorem send_data_spec (fuel : Nat) (c : Bool) (p : PendingMap)
    (data : List JVal) (so : Bool) (p2 : PendingMap) (eff : Effect)
    (h : send_data fuel c p data so = some (p2, eff)) :
    eff ≠ Effect.noFlush ∧
    (∀ f, eff = Effect.wrote f ∨ eff = Effect.writeFailed f → f ≠ []) := by
  unfold send_data at h
  split at h
  · exact absurd h (by simp)
  · rename_i stripped hs
    split at h
    · split at h
      · exact absurd h (by simp)
      · rename_i pending2 hreg
        split at h
        · rename_i hlen
          have hne : stripped ≠ [] := by
            intro hnil
            rw [hnil] at hlen
            simp at hlen
          split at h
          all_goals
            simp only [Option.some.injEq, Prod.mk.injEq] at h
            obtain ⟨rfl, rfl⟩ := h
            refine ⟨by simp, ?_⟩
            intro f hf
            rcases hf with hf | hf <;> simp_all
        · simp only [Option.some.injEq, Prod.mk.injEq] at h
          obtain ⟨rfl, rfl⟩ := h
          exact ⟨by simp, by intro f hf; rcases hf with hf | hf <;> simp_all⟩
    · simp only [Option.some.injEq, Prod.mk.injEq] at h
      obtain ⟨rfl, rfl⟩ := h
      exact ⟨by simp, by intro f hf; rcases hf with hf | hf <;> simp_all⟩

/-- The Bool flush condition of create_bulk, as a proposition. -/
theorem flushCond_iff (st : BulkState) (bulk1 : List JVal) :
    (((st.queueEmpty && st.pending.isEmpty) ||
        decide (MAX_BULK_SIZE ≤ bulk1.length)) = true)
    ↔ ((st.queueEmpty = true ∧ st.pending = []) ∨
        MAX_BULK_SIZE ≤ bulk1.length) := by
  simp [List.isEmpty_iff]

/-- C1: for every sequence of enqueue operations, create_bulk hands the
accumulated batch to send_data exactly when the sending queue and the
pending-ack map are both empty, or the batch (after this append) has
reached MAX_BULK_SIZE = 10; and a frame written to the socket is never the
empty list, so a batch that strips to nothing is never sent as a frame. -/
theorem C1_create_bulk_flush_iff (fuel : Nat) (st : BulkState)
    (d : Option JVal) (sockOk : Bool) (st2 : BulkState) (eff : Effect)
    (h : create_bulk fuel st d sockOk = some (st2, eff)) :
    ((eff ≠ Effect.noFlush) ↔
      ((st.queueEmpty = true ∧ st.pending = []) ∨
        MAX_BULK_SIZE ≤ (st.bulk ++ d.toList).length))
    ∧ (∀ frame, eff = Effect.wrote frame ∨ eff = Effect.writeFailed frame →
        frame ≠ []) := by
  unfold create_bulk at h
  split at h
  · rename_i hcond
    rw [flushCond_iff] at hcond
    cases hsd : send_data fuel st.connected st.pending (st.bulk ++ d.toList)
        sockOk with
    | none => rw [hsd] at h; exact absurd h (by simp)
    | some pe =>
      obtain ⟨p2, eff2⟩ := pe
      have hspec := send_data_spec fuel st.connected st.pending
        (st.bulk ++ d.toList) sockOk p2 eff2 hsd
      rw [hsd] at h
      cases eff2 with
      | noFlush => exact absurd rfl hspec.1
      | wrote frame =>
        simp only [Option.some.injEq, Prod.mk.injEq] at h
        obtain ⟨-, rfl⟩ := h
        exact ⟨by simp only [ne_eq, reduceCtorEq, not_false_eq_true, true_iff]; exact hcond, hspec.2⟩
      | writeFailed frame =>
        simp only [Option.some.injEq, Prod.mk.injEq] at h
        obtain ⟨-, rfl⟩ := h
        exact ⟨by simp only [ne_eq, reduceCtorEq, not_false_eq_true, true_iff]; exact hcond, hspec.2⟩
      | noFrame =>
        simp only [Option.some.injEq, Prod.mk.injEq] at h
        obtain ⟨-, rfl⟩ := h
        exact ⟨by simp only [ne_eq, reduceCtorEq, not_false_eq_true, true_iff]; exact hcond, by intro f hf; rcases hf with hf | hf <;> simp_all⟩
      | logged batch =>
        simp only [Option.some.injEq, Prod.mk.injEq] at h
        obtain ⟨-, rfl⟩ := h
        exact ⟨by simp only [ne_eq, reduceCtorEq, not_false_eq_true, true_iff]; exact hcond, by intro f hf; rcases hf with hf | hf <;> simp_all⟩
  · rename_i hcond
    simp only [Option.some.injEq, Prod.mk.injEq] at h
    obtain ⟨-, rfl⟩ := h
    rw [flushCond_iff] at hcond
    constructor
    · constructor
      · intro habs; exact absurd rfl habs
      · intro hr; exact absurd hr hcond
    · intro f hf; rcases hf with hf | hf <;> simp_all

/-- Witness for C1 at a concrete disconnected state: the queue and the
pending map are empty, so appending one message flushes it to the offline
log, and the flush is not a socket write of an empty frame. -/
theorem C1_witness :
    ((Effect.logged [JVal.obj [("a", JVal.num 1)]] ≠ Effect.noFlush) ↔
      ((true = true ∧ ([] : PendingMap) = []) ∨
        MAX_BULK_SIZE ≤
          (([] : List JVal) ++
            (some (JVal.obj [("a", JVal.num 1)])).toList).length))
    ∧ (∀ frame,
        Effect.logged [JVal.obj [("a", JVal.num 1)]] = Effect.wrote frame ∨
        Effect.logged [JVal.obj [("a", JVal.num 1)]] = Effect.writeFailed frame →
        frame ≠ []) :=
  C1_create_bulk_flush_iff 9 ⟨true, [], [], false⟩
    (some (JVal.obj [("a", JVal.num 1)])) true ⟨true, [], [], false⟩
    (Effect.logged [JVal.obj [("a", JVal.num 1)]]) rfl

theorem lastOf_isSome (a : JVal) (l : List JVal) :
    (lastOf (a :: l)).isSome = true := by
  induction l generalizing a with
  | nil => rfl
  | cons b rest ih => exact ih b

theorem lastOf_cons (a : JVal) (l : List JVal) :
    lastOf (a :: l) = match lastOf l with
      | none => some a
      | some b => some b := by
  cases l with
  | nil => rfl
  | cons b rest =>
    have h := lastOf_isSome b rest
    cases hl : lastOf (b :: rest) with
    | none => rw [hl] at h; simp at h
    | some c => simp only [lastOf, hl]

theorem lastOf_mem (l : List JVal) (b : JVal) (h : lastOf l = some b) :
    b ∈ l := by
  induction l with
  | nil => simp [lastOf] at h
  | cons a rest ih =>
    rw [lastOf_cons] at h
    cases hl : lastOf rest with
    | none => rw [hl] at h; simp at h; simp [h]
    | some c =>
      rw [hl] at h
      simp only [Option.some.injEq] at h
      subst h
      exact List.mem_cons_of_mem a (ih hl)

theorem dictLookup_cons (p : PKey × JVal) (rest : PendingMap) (k : PKey) :
    dictLookup (p :: rest) k
      = if p.1 = k then some p.2 else dictLookup rest k := by
  by_cases hp : p.1 = k
  · simp [dictLookup, List.find?, hp]
  · simp only [dictLookup, List.find?, if_neg hp]
    have hb : (p.1 == k) = false := by simp [hp]
    rw [hb]

theorem dictLookup_map_update_ne (m : PendingMap) (k : PKey) (v : JVal)
    (k2 : PKey) (hne : k2 ≠ k) :
    dictLookup (m.map (fun p => if p.1 == k then (k, v) else p)) k2
      = dictLookup m k2 := by
  induction m with
  | nil => rfl
  | cons p rest ih =>
    by_cases hp : p.1 = k
    · have hk2 : ¬ p.1 = k2 := by rw [hp]; exact Ne.symm hne
      have hhead : (if (p.1 == k) = true then (k, v) else p) = (k, v) := by
        simp [hp]
      rw [List.map_cons, hhead, dictLookup_cons, dictLookup_cons,
        if_neg (Ne.symm hne), if_neg hk2]
      exact ih
    · have hhead : (if (p.1 == k) = true then (k, v) else p) = p := by
        simp [hp]
      rw [List.map_cons, hhead, dictLookup_cons, dictLookup_cons]
      by_cases hpk : p.1 = k2
      · rw [if_pos hpk, if_pos hpk]
      · rw [if_neg hpk, if_neg hpk]; exact ih

theorem dictLookup_map_update_eq (m : PendingMap) (k : PKey) (v : JVal)
    (hAny : m.any (fun p => p.1 == k) = true) :
    dictLookup (m.map (fun p => if p.1 == k then (k, v) else p)) k
      = some v := by
  induction m with
  | nil => simp at hAny
  | cons p rest ih =>
    by_cases hp : p.1 = k
    · have hhead : (if (p.1 == k) = true then (k, v) else p) = (k, v) := by
        simp [hp]
      rw [List.map_cons, hhead, dictLookup_cons, if_pos rfl]
    · have hb : (p.1 == k) = false := by simp [hp]
      have hAny2 : rest.any (fun p => p.1 == k) = true := by
        simpa [List.any_cons, hb] using hAny
      have hhead : (if (p.1 == k) = true then (k, v) else p) = p := by
        simp [hp]
      rw [List.map_cons, hhead, dictLookup_cons, if_neg hp]
      exact ih hAny2

theorem dictLookup_append_single_eq (m : PendingMap) (k : PKey) (v : JVal)
    (hAny : m.any (fun p => p.1 == k) = false) :
    dictLookup (m ++ [(k, v)]) k = some v := by
  induction m with
  | nil => rw [List.nil_append, dictLookup_cons, if_pos rfl]
  | cons p rest ih =>
    have hAny2 : ((p.1 == k) = false) ∧ rest.any (fun p => p.1 == k) = false := by
      simpa [List.any_cons] using hAny
    rw [List.cons_append, dictLookup_cons, if_neg (by simpa using hAny2.1)]
    exact ih hAny2.2

theorem dictLookup_append_single_ne (m : PendingMap) (k : PKey) (v : JVal)
    (k2 : PKey) (hne : k2 ≠ k) :
    dictLookup (m ++ [(k, v)]) k2 = dictLookup m k2 := by
  induction m with
  | nil =>
    rw [List.nil_append, dictLookup_cons, if_neg (Ne.symm hne)]
  | cons p rest ih =>
    rw [List.cons_append, dictLookup_cons, dictLookup_cons]
    by_cases hpk : p.1 = k2
    · rw [if_pos hpk, if_pos hpk]
    · rw [if_neg hpk, if_neg hpk]; exact ih

/-- Inserting under key k sets k and leaves every other key unchanged. -/
theorem dictLookup_insert (m : PendingMap) (k : PKey) (v : JVal) (k2 : PKey) :
    dictLookup (dictInsert m k v) k2
      = if k2 = k then some v else dictLookup m k2 := by
  unfold dictInsert
  by_cases hAny : m.any (fun p => p.1 == k) = true
  · rw [if_pos hAny]
    by_cases hk : k2 = k
    · subst hk
      rw [if_pos rfl]
      exact dictLookup_map_update_eq m k2 v hAny
    · rw [if_neg hk]
      exact dictLookup_map_update_ne m k v k2 hk
  · rw [if_neg hAny]
    have hAnyF : m.any (fun p => p.1 == k) = false := by
      cases h2 : m.any (fun p => p.1 == k) with
      | true => exact absurd h2 hAny
      | false => rfl
    by_cases hk : k2 = k
    · subst hk
      rw [if_pos rfl]
      exact dictLookup_append_single_eq m k2 v hAnyF
    · rw [if_neg hk]
      exact dictLookup_append_single_ne m k v k2 hk

/-- After the registration loop, the pending map holds, under each key, the
last mutating batch element that carried that id, and is untouched at every
other key. -/
theorem registerMutating_lookup (els : List JVal) (m m2 : PendingMap)
    (k : PKey) (h : registerMutating m els = some m2) :
    dictLookup m2 k = match lastMutatingWith els k with
      | some el => some el
      | none => dictLookup m k := by
  induction els generalizing m with
  | nil =>
    simp only [registerMutating, Option.some.injEq] at h
    subst h
    rfl
  | cons el rest ih =>
    unfold registerMutating at h
    by_cases hmut : methodIsMutating el = true
    · rw [if_pos hmut] at h
      cases hId : getIdKey el with
      | none => rw [hId] at h; simp at h
      | some kEl =>
        rw [hId] at h
        have ihr := ih (dictInsert m kEl el) h
        by_cases hke : kEl = k
        · subst hke
          have hpred : (fun e => methodIsMutating e &&
              decide (getIdKey e = some kEl)) el = true := by
            simp [hmut, hId]
          unfold lastMutatingWith at ihr ⊢
          rw [List.filter_cons, if_pos hpred, lastOf_cons]
          cases hrest : lastOf (rest.filter
              (fun e => methodIsMutating e && decide (getIdKey e = some kEl))) with
          | none =>
            rw [hrest] at ihr
            simp only
            rw [ihr, dictLookup_insert]
            simp
          | some e2 =>
            rw [hrest] at ihr
            simp only
            exact ihr
        · have hpred : (fun e => methodIsMutating e &&
              decide (getIdKey e = some k)) el = false := by
            simp only [hId, hmut, Bool.true_and, decide_eq_false_iff_not]
            simp [hke]
          unfold lastMutatingWith at ihr ⊢
          rw [List.filter_cons, if_neg (by simp [hpred])]
          cases hrest : lastOf (rest.filter
              (fun e => methodIsMutating e && decide (getIdKey e = some k))) with
          | none =>
            rw [hrest] at ihr
            rw [ihr, dictLookup_insert, if_neg (fun he => hke he.symm)]
          | some e2 =>
            rw [hrest] at ihr
            exact ihr
    · rw [if_neg hmut] at h
      have ihr := ih m h
      have hpred : (fun e => methodIsMutating e &&
          decide (getIdKey e = some k)) el = false := by
        simp only [Bool.and_eq_false_iff]
        left
        simpa using hmut
      unfold lastMutatingWith at ihr ⊢
      rw [List.filter_cons, if_neg (by simp [hpred])]
      exact ihr

/-- Registration only completes when every mutating element has a hashable
id. -/
theorem registerMutating_hashable (els : List JVal) (m m2 : PendingMap)
    (h : registerMutating m els = some m2) :
    ∀ el ∈ els, methodIsMutating el = true → ∃ kEl, getIdKey el = some kEl := by
  induction els generalizing m with
  | nil => intro el hel; simp at hel
  | cons e rest ih =>
    intro el hel hmut
    unfold registerMutating at h
    rcases List.mem_cons.mp hel with rfl | hel2
    · rw [if_pos hmut] at h
      cases hId : getIdKey el with
      | none => rw [hId] at h; simp at h
      | some kEl => exact ⟨kEl, rfl⟩
    · by_cases hmute : methodIsMutating e = true
      · rw [if_pos hmute] at h
        cases hId : getIdKey e with
        | none => rw [hId] at h; simp at h
        | some kE =>
          rw [hId] at h
          exact ih (dictInsert m kE e) h el hel2 hmut
      · rw [if_neg hmute] at h
        exact ih m h el hel2 hmut

/-- C2: while connected, send_data inserts into packet_awaiting_confirm
exactly the stripped batch entries whose method field is PUT, POST or
DELETE: the map is the result of the registration loop, every key not
carried by a mutating entry is untouched, each mutating entry's id ends up
mapped to a mutating entry with that id (the last one, when ids repeat),
and the resulting map does not depend on whether the socket write
succeeds, because every insertion happens before the write. -/
theorem C2_send_data_registers (fuel : Nat) (pending : PendingMap)
    (data : List JVal) (sockOk : Bool) (stripped : List JVal)
    (pending2 : PendingMap) (eff : Effect)
    (hstrip : batchStrip fuel data = some stripped)
    (h : send_data fuel true pending data sockOk = some (pending2, eff)) :
    registerMutating pending stripped = some pending2
    ∧ (∀ k, (∀ el ∈ stripped, methodIsMutating el = true →
        getIdKey el ≠ some k) →
        dictLookup pending2 k = dictLookup pending k)
    ∧ (∀ el ∈ stripped, methodIsMutating el = true →
        ∃ kEl el2, getIdKey el = some kEl ∧ el2 ∈ stripped ∧
          methodIsMutating el2 = true ∧ getIdKey el2 = some kEl ∧
          dictLookup pending2 kEl = some el2)
    ∧ (∃ eff2, send_data fuel true pending data false
        = some (pending2, eff2)) := by
  unfold send_data at h
  simp only [hstrip] at h
  rw [if_pos trivial] at h
  cases hreg : registerMutating pending stripped with
  | none => simp only [hreg] at h; exact absurd h (by simp)
  | some p2 =>
    simp only [hreg] at h
    have hpend : p2 = pending2 := by
      split at h
      · split at h <;>
          (simp only [Option.some.injEq, Prod.mk.injEq] at h; exact h.1)
      · simp only [Option.some.injEq, Prod.mk.injEq] at h; exact h.1
    subst hpend
    refine ⟨rfl, ?_, ?_, ?_⟩
    · intro k hk
      have hlk := registerMutating_lookup stripped pending p2 k hreg
      have hfil : stripped.filter
          (fun e => methodIsMutating e && decide (getIdKey e = some k)) = [] := by
        apply List.filter_eq_nil_iff.mpr
        intro el hel
        cases hmut : methodIsMutating el with
        | false => simp
        | true =>
          simp only [Bool.true_and, Bool.not_eq_true, decide_eq_false_iff_not]
          exact hk el hel hmut
      unfold lastMutatingWith at hlk
      rw [hfil] at hlk
      exact hlk
    · intro el hel hmut
      obtain ⟨kEl, hkEl⟩ :=
        registerMutating_hashable stripped pending p2 hreg el hel hmut
      have hpredel : (fun e => methodIsMutating e &&
          decide (getIdKey e = some kEl)) el = true := by
        simp [hmut, hkEl]
      have hmemf : el ∈ stripped.filter
          (fun e => methodIsMutating e && decide (getIdKey e = some kEl)) :=
        List.mem_filter.mpr ⟨hel, hpredel⟩
      obtain ⟨el2, hel2⟩ : ∃ b, lastOf (stripped.filter
          (fun e => methodIsMutating e && decide (getIdKey e = some kEl)))
          = some b := by
        cases hf : stripped.filter
            (fun e => methodIsMutating e && decide (getIdKey e = some kEl)) with
        | nil => rw [hf] at hmemf; simp at hmemf
        | cons a l =>
          have hs := lastOf_isSome a l
          cases hlo : lastOf (a :: l) with
          | none => rw [hlo] at hs; simp at hs
          | some b => exact ⟨b, rfl⟩
      have hmem2 := lastOf_mem _ el2 hel2
      obtain ⟨hel2s, hpred2⟩ := List.mem_filter.mp hmem2
      have hlk := registerMutating_lookup stripped pending p2 kEl hreg
      unfold lastMutatingWith at hlk
      rw [hel2] at hlk
      simp only [Bool.and_eq_true, decide_eq_true_eq] at hpred2
      exact ⟨kEl, el2, hkEl, hel2s, hpred2.1, hpred2.2, hlk⟩
    · refine ⟨if 0 < stripped.length then Effect.writeFailed stripped
        else Effect.noFrame, ?_⟩
      unfold send_data
      simp only [hstrip]
      rw [if_pos trivial]
      simp only [hreg]
      by_cases hl : 0 < stripped.length
      · rw [if_pos hl, if_pos hl]
        rfl
      · rw [if_neg hl, if_neg hl]

/-- Witness for C2: a connected flush of one PUT message with id 1 completes
and satisfies the registration properties. -/
theorem C2_witness :
    registerMutating []
      [JVal.obj [("id", JVal.num 1), ("method", JVal.str "PUT")]]
      = some [(PKey.intKey 1,
          JVal.obj [("id", JVal.num 1), ("method", JVal.str "PUT")])]
    ∧ (∀ k, (∀ el ∈ [JVal.obj [("id", JVal.num 1), ("method", JVal.str "PUT")]],
        methodIsMutating el = true → getIdKey el ≠ some k) →
        dictLookup [(PKey.intKey 1,
          JVal.obj [("id", JVal.num 1), ("method", JVal.str "PUT")])] k
          = dictLookup [] k)
    ∧ (∀ el ∈ [JVal.obj [("id", JVal.num 1), ("method", JVal.str "PUT")]],
        methodIsMutating el = true →
        ∃ kEl el2, getIdKey el = some kEl ∧
          el2 ∈ [JVal.obj [("id", JVal.num 1), ("method", JVal.str "PUT")]] ∧
          methodIsMutating el2 = true ∧ getIdKey el2 = some kEl ∧
          dictLookup [(PKey.intKey 1,
            JVal.obj [("id", JVal.num 1), ("method", JVal.str "PUT")])] kEl
            = some el2)
    ∧ (∃ eff2, send_data 9 true []
        [JVal.obj [("id", JVal.num 1), ("method", JVal.str "PUT")]] false
        = some ([(PKey.intKey 1,
            JVal.obj [("id", JVal.num 1), ("method", JVal.str "PUT")])], eff2)) :=
  C2_send_data_registers 9 []
    [JVal.obj [("id", JVal.num 1), ("method", JVal.str "PUT")]] true
    [JVal.obj [("id", JVal.num 1), ("method", JVal.str "PUT")]]
    [(PKey.intKey 1, JVal.obj [("id", JVal.num 1), ("method", JVal.str "PUT")])]
    (Effect.wrote [JVal.obj [("id", JVal.num 1), ("method", JVal.str "PUT")]])
    rfl rfl

/-- C9: a flush performed while the connected flag is false leaves
packet_awaiting_confirm completely untouched - also for PUT, POST and
DELETE entries - and hands the entire stripped batch to
event_storage.add_message instead of the socket. -/
theorem C9_send_data_offline (fuel : Nat) (pending : PendingMap)
    (data : List JVal) (sockOk : Bool) (stripped : List JVal)
    (hstrip : batchStrip fuel data = some stripped) :
    send_data fuel false pending data sockOk
      = some (pending, Effect.logged stripped) := by
  unfold send_data
  rw [hstrip]
  rfl

/-- Witness for C9: one PUT message flushed while disconnected is logged
whole and the pending map stays empty. -/
theorem C9_witness :
    send_data 9 false [(PKey.intKey 5, JVal.null)]
      [JVal.obj [("method", JVal.str "PUT"), ("id", JVal.num 7)]] true
      = some ([(PKey.intKey 5, JVal.null)],
          Effect.logged [JVal.obj [("method", JVal.str "PUT"), ("id", JVal.num 7)]]) :=
  C9_send_data_offline 9 [(PKey.intKey 5, JVal.null)]
    [JVal.obj [("method", JVal.str "PUT"), ("id", JVal.num 7)]] true
    [JVal.obj [("method", JVal.str "PUT"), ("id", JVal.num 7)]] rfl

/-- C6 counterexample: a connected flush whose socket write raises OSError
leaves bulk_send_list holding the stripped frame - it is not cleared, so
the claim "cleared after each flush attempt, success or failure" fails
here. -/
theorem C6_counterexample :
    create_bulk 9 ⟨true, [], [], true⟩
      (some (JVal.obj [("method", JVal.str "POST"), ("id", JVal.num 3)])) false
    = some (⟨true,
        [(PKey.intKey 3, JVal.obj [("method", JVal.str "POST"), ("id", JVal.num 3)])],
        [JVal.obj [("method", JVal.str "POST"), ("id", JVal.num 3)]], false⟩,
      Effect.writeFailed [JVal.obj [("method", JVal.str "POST"), ("id", JVal.num 3)]])
    ∧ [JVal.obj [("method", JVal.str "POST"), ("id", JVal.num 3)]]
        ≠ ([] : List JVal) :=
  ⟨rfl, by simp⟩

/-- C6 amended: after a completed flush the bulk list is cleared in every
case except an OSError from the socket write; in that case create_bulk's
handler only flips the connected flag and bulk_send_list keeps the
stripped frame. -/
theorem C6_create_bulk_clearing (fuel : Nat) (st : BulkState) (d : Option JVal)
    (sockOk : Bool) (st2 : BulkState) (eff : Effect)
    (h : create_bulk fuel st d sockOk = some (st2, eff)) :
    (∀ frame, eff = Effect.wrote frame → st2.bulk = [])
    ∧ (eff = Effect.noFrame → st2.bulk = [])
    ∧ (∀ batch, eff = Effect.logged batch → st2.bulk = [])
    ∧ (∀ frame, eff = Effect.writeFailed frame →
        st2.bulk = frame ∧ st2.connected = false) := by
  unfold create_bulk at h
  split at h
  · cases hsd : send_data fuel st.connected st.pending (st.bulk ++ d.toList)
        sockOk with
    | none => rw [hsd] at h; exact absurd h (by simp)
    | some pe =>
      obtain ⟨p2, eff2⟩ := pe
      rw [hsd] at h
      cases eff2 with
      | noFlush => exact absurd h (by simp)
      | wrote frame =>
        simp only [Option.some.injEq, Prod.mk.injEq] at h
        obtain ⟨hst, rfl⟩ := h
        subst hst
        refine ⟨?_, by simp, by simp, by simp⟩
        intro f hf
        simp only [Effect.wrote.injEq] at hf
        rfl
      | writeFailed frame =>
        simp only [Option.some.injEq, Prod.mk.injEq] at h
        obtain ⟨hst, rfl⟩ := h
        subst hst
        refine ⟨by simp, by simp, by simp, ?_⟩
        intro f hf
        simp only [Effect.writeFailed.injEq] at hf
        subst hf
        exact ⟨rfl, rfl⟩
      | noFrame =>
        simp only [Option.some.injEq, Prod.mk.injEq] at h
        obtain ⟨hst, rfl⟩ := h
        subst hst
        exact ⟨by simp, fun _ => rfl, by simp, by simp⟩
      | logged batch =>
        simp only [Option.some.injEq, Prod.mk.injEq] at h
        obtain ⟨hst, rfl⟩ := h
        subst hst
        exact ⟨by simp, by simp, fun _ _ => rfl, by simp⟩
  · simp only [Option.some.injEq, Prod.mk.injEq] at h
    obtain ⟨hst, rfl⟩ := h
    exact ⟨by simp, by simp, by simp, by simp⟩

/-- Witness for C6 (amended): the same flush with a succeeding socket write
does clear bulk_send_list. -/
theorem C6_witness :
    (∀ frame, Effect.wrote
        [JVal.obj [("method", JVal.str "POST"), ("id", JVal.num 3)]]
        = Effect.wrote frame →
      (⟨true, [(PKey.intKey 3,
          JVal.obj [("method", JVal.str "POST"), ("id", JVal.num 3)])],
        [], true⟩ : BulkState).bulk = [])
    ∧ (Effect.wrote [JVal.obj [("method", JVal.str "POST"), ("id", JVal.num 3)]]
        = Effect.noFrame →
      (⟨true, [(PKey.intKey 3,
          JVal.obj [("method", JVal.str "POST"), ("id", JVal.num 3)])],
        [], true⟩ : BulkState).bulk = [])
    ∧ (∀ batch, Effect.wrote
        [JVal.obj [("method", JVal.str "POST"), ("id", JVal.num 3)]]
        = Effect.logged batch →
      (⟨true, [(PKey.intKey 3,
          JVal.obj [("method", JVal.str "POST"), ("id", JVal.num 3)])],
        [], true⟩ : BulkState).bulk = [])
    ∧ (∀ frame, Effect.wrote
        [JVal.obj [("method", JVal.str "POST"), ("id", JVal.num 3)]]
        = Effect.writeFailed frame →
      (⟨true, [(PKey.intKey 3,
          JVal.obj [("method", JVal.str "POST"), ("id", JVal.num 3)])],
        [], true⟩ : BulkState).bulk = frame ∧
      (⟨true, [(PKey.intKey 3,
          JVal.obj [("method", JVal.str "POST"), ("id", JVal.num 3)])],
        [], true⟩ : BulkState).connected = false) :=
  C6_create_bulk_clearing 9 ⟨true, [], [], true⟩
    (some (JVal.obj [("method", JVal.str "POST"), ("id", JVal.num 3)])) true
    ⟨true, [(PKey.intKey 3,
        JVal.obj [("method", JVal.str "POST"), ("id", JVal.num 3)])], [], true⟩
    (Effect.wrote [JVal.obj [("method", JVal.str "POST"), ("id", JVal.num 3)]])
    rfl

/-- C7 (code bug): stripping the batch [{"a": null}, {"b": null}] removes the
first entry from the list while iterating over it, so the iterator skips the
second entry: it is never stripped, survives still holding its null value,
and a connected flush transmits [{"b": null}] - an entry that is empty after
stripping - although the claim (and the docstring of
get_object_without_none_values, "removes any keys where value is None") says
every null-valued key is removed and every entry that becomes empty is
dropped.  The last conjunct shows the same skip one level down, inside a
list-valued key. -/
theorem C7_strip_skips_entry :
    batchStrip 9 [JVal.obj [("a", JVal.null)], JVal.obj [("b", JVal.null)]]
      = some [JVal.obj [("b", JVal.null)]]
    ∧ send_data 9 true []
        [JVal.obj [("a", JVal.null)], JVal.obj [("b", JVal.null)]] true
      = some ([], Effect.wrote [JVal.obj [("b", JVal.null)]])
    ∧ jStrip 9 (JVal.obj [("b", JVal.null)]) = some (JVal.obj [])
    ∧ jStrip 9 (JVal.obj [("k",
        JVal.arr [JVal.obj [("a", JVal.null)], JVal.obj [("b", JVal.null)]])])
      = some (JVal.obj [("k", JVal.arr [JVal.obj [("b", JVal.null)]])]) :=
  ⟨rfl, rfl, rfl, rfl⟩

theorem filter_eq_self_of_no_key (m : PendingMap) (i : PKey)
    (h : ∀ p ∈ m, ¬ p.1 = i) :
    m.filter (fun p => !(p.1 == i)) = m :=
  List.filter_eq_self.mpr (fun p hp => by simp [h p hp])

theorem eraseP_key_eq_filter (m : PendingMap) (i : PKey)
    (hnd : (m.map (fun p => p.1)).Nodup) :
    m.eraseP (fun p => p.1 == i) = m.filter (fun p => !(p.1 == i)) := by
  induction m with
  | nil => rfl
  | cons p rest ih =>
    simp only [List.map_cons, List.nodup_cons] at hnd
    by_cases hp : p.1 = i
    · rw [List.eraseP_cons_of_pos (by simp [hp]),
        List.filter_cons_of_neg (by simp [hp])]
      symm
      apply filter_eq_self_of_no_key
      intro a ha hai
      exact hnd.1 (by rw [← hp, ← hai] at *; exact List.mem_map_of_mem _ ha)
    · rw [List.eraseP_cons_of_neg (by simp [hp]),
        List.filter_cons_of_pos (by simp [hp])]
      rw [ih hnd.2]

theorem dictLookup_filter_self (m : PendingMap) (i : PKey) :
    dictLookup (m.filter (fun p => !(p.1 == i))) i = none := by
  have hf : (m.filter (fun p => !(p.1 == i))).find?
      (fun p => p.1 == i) = none := by
    apply List.find?_eq_none.mpr
    intro x hx
    have h2 := (List.mem_filter.mp hx).2
    cases hxe : (x.1 == i) with
    | false => simp
    | true => rw [hxe] at h2; simp at h2
  unfold dictLookup
  rw [hf]

theorem dictLookup_filter_ne (m : PendingMap) (i k : PKey) (hk : k ≠ i) :
    dictLookup (m.filter (fun p => !(p.1 == i))) k = dictLookup m k := by
  induction m with
  | nil => rfl
  | cons p rest ih =>
    by_cases hp : p.1 = i
    · rw [List.filter_cons_of_neg (by simp [hp]), dictLookup_cons,
        if_neg (by rw [hp]; exact Ne.symm hk), ih]
    · rw [List.filter_cons_of_pos (by simp [hp]), dictLookup_cons,
        dictLookup_cons]
      by_cases hpk : p.1 = k
      · rw [if_pos hpk, if_pos hpk]
      · rw [if_neg hpk, if_neg hpk]; exact ih

/-- C10: remove_id_from_confirm_list never raises; with the dict key
uniqueness every Python dict enjoys, it equals dropping exactly the entries
keyed by the id: the id itself resolves to nothing afterwards, every other
key resolves exactly as before, and when the id is absent the map is
returned unchanged. -/
theorem C10_remove_id_spec (m : PendingMap) (i : PKey)
    (hnd : (m.map (fun p => p.1)).Nodup) :
    remove_id_from_confirm_list m i = m.filter (fun p => !(p.1 == i))
    ∧ dictLookup (remove_id_from_confirm_list m i) i = none
    ∧ (∀ k, k ≠ i → dictLookup (remove_id_from_confirm_list m i) k
        = dictLookup m k)
    ∧ ((∀ v, (i, v) ∉ m) → remove_id_from_confirm_list m i = m) := by
  have hfe : remove_id_from_confirm_list m i
      = m.filter (fun p => !(p.1 == i)) := by
    unfold remove_id_from_confirm_list
    by_cases hAny : m.any (fun p => p.1 == i) = true
    · rw [if_pos hAny]
      exact eraseP_key_eq_filter m i hnd
    · rw [if_neg hAny]
      symm
      apply filter_eq_self_of_no_key
      intro p hp hpi
      exact hAny (List.any_eq_true.mpr ⟨p, hp, by simp [hpi]⟩)
  refine ⟨hfe, ?_, ?_, ?_⟩
  · rw [hfe]; exact dictLookup_filter_self m i
  · intro k hk; rw [hfe]; exact dictLookup_filter_ne m i k hk
  · intro habs
    unfold remove_id_from_confirm_list
    rw [if_neg ?hg]
    case hg =>
      intro hAny
      obtain ⟨p, hp, hpi⟩ := List.any_eq_true.mp hAny
      have hp1 : p.1 = i := by simpa using hpi
      exact habs p.2 (by rw [← hp1]; exact hp)

/-- Witness for C10 at a concrete two-entry map: removing id 1 keeps exactly
the entry keyed 2, and removing from a map not holding the id is the
identity. -/
theorem C10_witness :
    remove_id_from_confirm_list
        [(PKey.intKey 1, JVal.null), (PKey.intKey 2, JVal.bool true)]
        (PKey.intKey 1)
      = List.filter (fun p => !(p.1 == PKey.intKey 1))
          [(PKey.intKey 1, JVal.null), (PKey.intKey 2, JVal.bool true)]
    ∧ dictLookup (remove_id_from_confirm_list
        [(PKey.intKey 1, JVal.null), (PKey.intKey 2, JVal.bool true)]
        (PKey.intKey 1)) (PKey.intKey 1) = none
    ∧ (∀ k, k ≠ PKey.intKey 1 →
        dictLookup (remove_id_from_confirm_list
          [(PKey.intKey 1, JVal.null), (PKey.intKey 2, JVal.bool true)]
          (PKey.intKey 1)) k
        = dictLookup [(PKey.intKey 1, JVal.null),
            (PKey.intKey 2, JVal.bool true)] k)
    ∧ ((∀ v, (PKey.intKey 1, v)
          ∉ [(PKey.intKey 1, JVal.null), (PKey.intKey 2, JVal.bool true)]) →
        remove_id_from_confirm_list
          [(PKey.intKey 1, JVal.null), (PKey.intKey 2, JVal.bool true)]
          (PKey.intKey 1)
        = [(PKey.intKey 1, JVal.null), (PKey.intKey 2, JVal.bool true)]) :=
  C10_remove_id_spec
    [(PKey.intKey 1, JVal.null), (PKey.intKey 2, JVal.bool true)]
    (PKey.intKey 1) (by decide)

/-- C3 counterexample: with period None and delta 5, the sample trace
[10, 12, 16, 16, 21] makes the loop send exactly one report, at the final
sample 21 (|16 - 21| = 5), and no report when the samples reach 16
(|12 - 16| = 4 < 5): the code compares the distance between the last two
distinct samples, not the cumulative difference since the last report, so
the claimed two reports (one at 16, one at 21) are refuted. -/
theorem C3_counterexample :
    (reportRun 5 (reportInit 10) [10, 12, 16, 16, 21]).2
      = [false, false, false, false, true]
    ∧ (reportRun 5 (reportInit 10) [10, 12, 16, 16, 21]).2.count true = 1
    ∧ ¬ ((reportRun 5 (reportInit 10) [10, 12, 16, 16, 21]).2.count true = 2) := by
  refine ⟨rfl, rfl, ?_⟩
  intro h
  rw [show (reportRun 5 (reportInit 10) [10, 12, 16, 16, 21]).2.count true
      = 1 from rfl] at h
  exact absurd h (by omega)

/-- C3 amended: with period None and delta configured, a tick sends a report
exactly when the dirty flag would be set and the distance between the two
most recent distinct samples (overwritten on each change, not accumulated
since the last report) is at least delta; on [10, 12, 16, 16, 21] with
delta 5 this fires exactly once, after the final sample 21. -/
theorem C3_delta_rule :
    (∀ delta st sample,
      (reportTick delta st sample).2 = true ↔
        (delta ≤ (if sample = st.lastObserved then st.difference
            else ((st.lastObserved - sample).natAbs : Int))
          ∧ (if sample = st.lastObserved then st.deltaReport else 1) = 1))
    ∧ (reportRun 5 (reportInit 10) [10, 12, 16, 16, 21]).2
        = [false, false, false, false, true] := by
  constructor
  · intro delta st sample
    unfold reportTick
    by_cases hs : sample = st.lastObserved
    · rw [if_pos hs, if_pos hs, if_pos hs]
      by_cases hc : delta ≤ st.difference ∧ st.deltaReport = 1
      · rw [if_pos hc]; simpa using hc
      · rw [if_neg hc]; simpa using hc
    · rw [if_neg hs, if_neg hs, if_neg hs]
      by_cases hc : delta ≤ ((st.lastObserved - sample).natAbs : Int) ∧ (1 : Nat) = 1
      · rw [if_pos hc]; simpa using hc
      · rw [if_neg hc]; simpa using hc
  · rfl

/-- C8 (code bug): on a network with one device holding one value, close()
raises AttributeError - value.timer is None (the attribute does not exist
and Value.__getattr__ answers None) and None.is_alive() fails - so close is
not the never-raising, timer-cancelling, idempotent operation the claim
describes.  On a network with no values the socket part does behave
idempotently, as the last two conjuncts record. -/
theorem C8_close_raises :
    close ⟨[[⟨"value-1"⟩]], true, true, true⟩ = .error .attributeError
    ∧ close ⟨[[]], true, true, true⟩ = .ok ⟨[[]], false, false, false⟩
    ∧ close ⟨[[]], false, false, false⟩ = .ok ⟨[[]], false, false, false⟩ :=
  ⟨rfl, rfl, rfl⟩

/-- C4 (code bug): with log limit 100 bytes, evict-oldest policy and an
empty offline directory, logging a message whose JSON serialization is 80
ASCII bytes already fails on the first call: get_size adds sys.getsizeof's
49-byte str header, 0 + 129 > 100, so the overflow branch runs and
get_oldest_log does all_logs[0] on an empty directory, raising an uncaught
IndexError - the write never happens and no trimming "makes room", against
the claimed scenario of two 80-byte messages fitting via eviction. -/
theorem C4_add_message_crashes :
    add_message (fun _ => 0) ⟨true, 100, REMOVE_OLD, 1⟩ "2020-1-2" 3 []
      (String.mk (List.replicate 80 'x')) = .error .indexError
    ∧ get_size (fun _ => 0) [] (String.mk (List.replicate 80 'x')) = 129
    ∧ ¬ (get_size (fun _ => 0) [] (String.mk (List.replicate 80 'x')) ≤ 100) := by
  refine ⟨rfl, ?_, ?_⟩
  · show 49 + (List.replicate 80 'x').length = 129
    rw [List.length_replicate]
  · intro h
    rw [show get_size (fun _ => 0) [] (String.mk (List.replicate 80 'x'))
        = 129 from by
      show 49 + (List.replicate 80 'x').length = 129
      rw [List.length_replicate]] at h
    omega

/-- C5 counterexample: a PUT frame with no params at all - the malformed
shape the claim speaks about - makes incoming_control log the payload and
return without queueing anything: no "incorrect format" error reply (nor
any reply) is sent to the peer, refuting the claimed peer-visible error. -/
theorem C5_counterexample :
    incoming_control (fun _ => none)
      (JVal.obj [("id", JVal.num 7), ("method", JVal.str "PUT")])
      = .ok ([], true) := rfl

/-- C5 amended: for each of the PUT, GET and DELETE handlers, a malformed
nested shape (AttributeError while reading params.data.meta.id) is caught
and only logged - the handler returns with no reply queued - while a
well-formed frame whose uuid resolves to nothing always queues exactly the
declared "Non-existing uuid provided" error reply and raises nothing. -/
theorem C5_dispatch_replies (lookup : String → Option DMObj) (data : JVal)
    (rid : Option JVal) (hid : pyGet data "id" = .ok rid) :
    (extractTarget data = .error .attributeError →
      incoming_control lookup data = .ok ([], true)
      ∧ incoming_report_request lookup data = .ok ([], true)
      ∧ incoming_delete_request lookup data = .ok ([], true))
    ∧ (∀ t tr, extractTarget data = .ok t → extractTrace data = .ok tr →
        lookup t.uuid = none →
        incoming_control lookup data
          = .ok ([Queued.failed "Non-existing uuid provided" rid], false)
        ∧ incoming_report_request lookup data
          = .ok ([Queued.failed "Non-existing uuid provided" rid], false)
        ∧ incoming_delete_request lookup data
          = .ok ([Queued.failed "Non-existing uuid provided" rid], false)) := by
  constructor
  · intro hext
    refine ⟨?_, ?_, ?_⟩
    · unfold incoming_control
      simp only [hid, hext]
    · unfold incoming_report_request
      simp only [hid, hext]
    · unfold incoming_delete_request
      simp only [hid, hext]
  · intro t tr hext htr hlk
    refine ⟨?_, ?_, ?_⟩
    · unfold incoming_control
      simp only [hid, hext, htr, hlk]
    · unfold incoming_report_request
      simp only [hid, hext, htr, hlk]
    · unfold incoming_delete_request
      simp only [hid, hext, htr, hlk]

/-- Witness for C5 (amended): a well-formed PUT frame whose uuid "u1" is
unknown gets exactly the declared error reply from all three handlers. -/
theorem C5_witness :
    incoming_control (fun _ => none)
      (JVal.obj [("id", JVal.num 9), ("params", JVal.obj [("data",
        JVal.obj [("meta", JVal.obj [("id", JVal.str "u1"),
          ("type", JVal.str "state")])])])])
      = .ok ([Queued.failed "Non-existing uuid provided" (some (JVal.num 9))],
          false)
    ∧ incoming_report_request (fun _ => none)
      (JVal.obj [("id", JVal.num 9), ("params", JVal.obj [("data",
        JVal.obj [("meta", JVal.obj [("id", JVal.str "u1"),
          ("type", JVal.str "state")])])])])
      = .ok ([Queued.failed "Non-existing uuid provided" (some (JVal.num 9))],
          false)
    ∧ incoming_delete_request (fun _ => none)
      (JVal.obj [("id", JVal.num 9), ("params", JVal.obj [("data",
        JVal.obj [("meta", JVal.obj [("id", JVal.str "u1"),
          ("type", JVal.str "state")])])])])
      = .ok ([Queued.failed "Non-existing uuid provided" (some (JVal.num 9))],
          false) :=
  (C5_dispatch_replies (fun _ => none)
    (JVal.obj [("id", JVal.num 9), ("params", JVal.obj [("data",
      JVal.obj [("meta", JVal.obj [("id", JVal.str "u1"),
        ("type", JVal.str "state")])])])])
    (some (JVal.num 9)) rfl).2
    ⟨"u1", JVal.obj [("meta", JVal.obj [("id", JVal.str "u1"),
        ("type", JVal.str "state")])], some (JVal.str "state")⟩
    none rfl rfl rfl

end Wappsto
